import Mathlib

/-!
Verification of the COMP2322 static-file HTTP server (Python) against its
natural-language specification.

The development shallowly embeds the request-handling core of
`serverPro.py` (the most complete variant, which the spec canonicalizes:
`parse_request`, `build_response`, and the post-parse portion of
`handle_client`) and, for directory handling, the routing portion of
`server_error.py`'s `handle_client`.

Modelling conventions:
* Python `str` values are modelled as `List Char` (`Str`).  The server
  decodes request bytes with ISO-8859-1, a bijection between bytes and the
  code points 0..255, so byte strings are modelled the same way.
* Filesystem state is a function from absolute paths to an optional node
  (regular file with metadata, or directory).  `os.path.getmtime` returns a
  float of seconds; modification times are modelled as `ℚ`.
* External library helpers that the core only calls (the MIME table lookup
  `mimetypes.guess_type`, the RFC-1123 date parser
  `email.utils.parsedate_to_datetime` composed with `.timestamp()`, and the
  date formatters) are abstracted as fields of the environment `Env`;
  their internals are not the server's code.
* `urllib.parse.unquote` is modelled at the byte level (each `%XX` escape
  becomes the character with that code); Python's UTF-8 recombination of
  multi-byte sequences does not affect the ASCII metacharacters
  (`/`, `.`, `?`) that the server inspects.
-/

/-- Python strings, modelled as lists of characters. -/
abbrev Str := List Char

/-- Coerce a Lean string literal into the model's string type. -/
def str (s : String) : Str := s.data

/-- Header mapping: association list in insertion order (Python `dict`). -/
abbrev Dict := List (Str × Str)

/-- Characters Python's `str.split()` / `str.strip()` treat as whitespace. -/
def isPySpace (c : Char) : Bool :=
  c = ' ' ∨ c = '\t' ∨ c = '\n' ∨ c = '\r' ∨ c = '\x0b' ∨ c = '\x0c'

/-- `s.split("\r\n")`: split on every occurrence of the two-character
separator, keeping empty pieces (Python semantics). -/
def splitCRLF : Str → List Str
  | [] => [[]]
  | '\r' :: '\n' :: rest => [] :: splitCRLF rest
  | c :: rest =>
    match splitCRLF rest with
    | [] => [[c]]
    | h :: t => (c :: h) :: t

/-- Helper for `pySplit`: `tok` is the current token, reversed. -/
def pySplitGo : Str → Str → List Str
  | [], tok => if tok = [] then [] else [tok.reverse]
  | c :: rest, tok =>
    if isPySpace c then
      if tok = [] then pySplitGo rest []
      else tok.reverse :: pySplitGo rest []
    else pySplitGo rest (c :: tok)

/-- Python `str.split()` with no argument: split on runs of whitespace,
dropping leading/trailing whitespace and empty tokens. -/
def pySplit (s : Str) : List Str := pySplitGo s []

/-- Python `str.strip()`: drop leading and trailing whitespace. -/
def pyStrip (s : Str) : Str :=
  ((s.dropWhile isPySpace).reverse.dropWhile isPySpace).reverse

/-- Python `str.upper()` (the server only feeds it ASCII tokens, where
`Char.toUpper` agrees with Python). -/
def strUpper (s : Str) : Str := s.map Char.toUpper

/-- Python `str.lower()` (ASCII, as above). -/
def strLower (s : Str) : Str := s.map Char.toLower

/-- Python `a.startswith(b)`. -/
def startsWith (pre s : Str) : Bool := List.isPrefixOf pre s

/-- `':' in line`. -/
def hasColon : Str → Bool
  | [] => false
  | c :: rest => if c = ':' then true else hasColon rest

/-- Python `line.split(':', 1)`, assuming a colon is present: the part
before the first colon and the part after it. -/
def splitFirstColon : Str → Str × Str
  | [] => ([], [])
  | c :: rest =>
    if c = ':' then ([], rest)
    else
      let p := splitFirstColon rest
      (c :: p.1, p.2)

/-- Value of a hexadecimal digit, if any. -/
def hexVal (c : Char) : Option Nat :=
  if '0' ≤ c ∧ c ≤ '9' then some (c.toNat - '0'.toNat)
  else if 'a' ≤ c ∧ c ≤ 'f' then some (c.toNat - 'a'.toNat + 10)
  else if 'A' ≤ c ∧ c ≤ 'F' then some (c.toNat - 'A'.toNat + 10)
  else none

/-- `urllib.parse.unquote`, byte-level: each valid `%XX` escape becomes the
character with code `XX`; invalid escapes are left untouched. -/
def unquote : Str → Str
  | [] => []
  | '%' :: a :: b :: rest =>
    match hexVal a, hexVal b with
    | some ha, some hb => Char.ofNat (16 * ha + hb) :: unquote rest
    | _, _ => '%' :: unquote (a :: b :: rest)
  | c :: rest => c :: unquote rest

/-- `path.split('?', 1)[0]` guarded by `'?' in path`: everything before the
first question mark (the whole string when there is none). -/
def stripQuery (p : Str) : Str := p.takeWhile (fun c => c ≠ '?')

/-- Split an absolute path on `'/'` (Python `normpath`'s tokenization). -/
def splitSlash : Str → List Str
  | [] => [[]]
  | '/' :: rest => [] :: splitSlash rest
  | c :: rest =>
    match splitSlash rest with
    | [] => [[c]]
    | h :: t => (c :: h) :: t

/-- One step of POSIX path normalization over the segment stack: empty and
`"."` segments are dropped, `".."` pops (a no-op at the root), anything
else is pushed. -/
def normSeg (acc : List Str) (seg : Str) : List Str :=
  if seg = [] ∨ seg = ['.'] then acc
  else if seg = ['.', '.'] then acc.dropLast
  else acc ++ [seg]

/-- Join segments with `'/'`. -/
def joinSlash : List Str → Str
  | [] => []
  | [x] => x
  | x :: xs => x ++ '/' :: joinSlash xs

/-- `os.path.abspath` on an input that is already an absolute POSIX path
(the server always passes `cwd + path` or `root + '/' + rel` with an
absolute, normalized, non-root `cwd`/`root`), i.e. `os.path.normpath`. -/
def abspath (s : Str) : Str :=
  '/' :: joinSlash ((splitSlash s).foldl normSeg [])

/-- Decimal rendering of a natural number, as `str(n)`. -/
def natToStr (n : Nat) : Str := Nat.toDigits 10 n

/-- Python `headers[k] = v` on a `dict`: replace in place if the key is
present, append otherwise. -/
def dictInsert (d : Dict) (k v : Str) : Dict :=
  match d with
  | [] => [(k, v)]
  | (k0, v0) :: rest =>
    if k0 = k then (k0, v) :: rest else (k0, v0) :: dictInsert rest k v

/-- Python `headers.get(k)`. -/
def dictGet (d : Dict) (k : Str) : Option Str :=
  match d with
  | [] => none
  | (k0, v0) :: rest => if k0 = k then some v0 else dictGet rest k

/-- A filesystem node: a regular file with its metadata, or a directory.
`statOk` models `os.path.getsize`/`os.path.getmtime` succeeding, `readOk`
models `open(path, "rb").read()` succeeding. -/
inductive Node where
  | file (content : Str) (size : Nat) (mtime : ℚ) (statOk : Bool) (readOk : Bool)
  | dir
deriving DecidableEq

/-- The server's environment: working directory, filesystem snapshot, and
the external helpers the core calls (MIME table, RFC-1123 date parsing for
`If-Modified-Since` producing an epoch timestamp, the current `Date`
header value, and the `Last-Modified` formatter). -/
structure Env where
  cwd : Str
  fs : Str → Option Node
  mime : Str → Option Str
  parsedate : Str → Option Int
  now : Str
  fmtDate : ℚ → Str

/-- Parse failures of `serverPro.parse_request`, by the `ValueError`
message raised ("Bad Request", "HTTP Version Not Supported",
"Not Implemented"). -/
inductive ParseError where
  | badRequest
  | versionNotSupported
  | notImplemented
deriving DecidableEq

/-- The tuple returned by `serverPro.parse_request`. -/
structure ParsedRequest where
  method : Str
  path : Str
  version : Str
  headers : Dict
  requestLine : Str
deriving DecidableEq

instance {ε α : Type} [DecidableEq ε] [DecidableEq α] : DecidableEq (Except ε α)
  | .ok a, .ok b =>
    if h : a = b then .isTrue (by rw [h])
    else .isFalse (by intro he; injection he with h2; exact h h2)
  | .ok _, .error _ => .isFalse (by intro h; exact Except.noConfusion h)
  | .error _, .ok _ => .isFalse (by intro h; exact Except.noConfusion h)
  | .error e, .error f =>
    if h : e = f then .isTrue (by rw [h])
    else .isFalse (by intro he; injection he with h2; exact h h2)

/-- The header-parsing loop of `parse_request` (lines 73-81): iterate over
the lines after the request line up to the first empty line, skip lines
without a colon, split on the first colon, strip both parts, last
occurrence of a key wins.  Header names keep the casing the client sent. -/
def parseHeaders : List Str → Dict → Dict
  | [], acc => acc
  | line :: rest, acc =>
    if line = [] then acc
    else if ¬ hasColon line then parseHeaders rest acc
    else
      let kv := splitFirstColon line
      parseHeaders rest (dictInsert acc (pyStrip kv.1) (pyStrip kv.2))

/-- `serverPro.parse_request` (lines 32-82).  The ISO-8859-1 decode of the
raw bytes is the identity in this model (it never fails: every byte maps
to a code point). -/
def parse_request (cwd : Str) (request_text : Str) : Except ParseError ParsedRequest :=
  match splitCRLF request_text with
  | [] => .error .badRequest
  | firstLine :: restLines =>
    if firstLine = [] then .error .badRequest
    else
      match pySplit firstLine with
      | [m, p, v] =>
        let method := strUpper m
        if v ≠ str "HTTP/1.0" ∧ v ≠ str "HTTP/1.1" then .error .versionNotSupported
        else if method ≠ str "GET" ∧ method ≠ str "HEAD" then .error .notImplemented
        else if ¬ startsWith (str "/") p then .error .badRequest
        else
          let p1 := stripQuery p
          let p2 := unquote p1
          if ¬ startsWith cwd (abspath (cwd ++ p2)) then .error .badRequest
          else
            .ok { method := method, path := p2, version := v,
                  headers := parseHeaders restLines [], requestLine := firstLine }
      | _ => .error .badRequest

/-- Response headers.  `serverPro` only ever writes these six keys into its
`response_headers` dict, so it is modelled as a record of optional
values; `pop` sets a field back to `none`. -/
structure RespHeaders where
  date : Option Str := none
  server : Option Str := none
  contentType : Option Str := none
  contentLength : Option Str := none
  lastModified : Option Str := none
  connection : Option Str := none
deriving DecidableEq

/-- A built response together with what `handle_client` actually writes
(`sentBody`) and its continuation decision (`keepAlive`). -/
structure Response where
  status : Nat
  reason : Str
  headers : RespHeaders
  body : Str
  sentBody : Str
  keepAlive : Bool
deriving DecidableEq

/-- The minimal HTML body `f"<html><body><h1>{status} {reason}</h1></body></html>"`. -/
def errorBody (status : Nat) (reason : Str) : Str :=
  str "<html><body><h1>" ++ natToStr status ++ ' ' :: reason ++ str "</h1></body></html>"

/-- The path rewrite and resolution at the top of `build_response`
(lines 95-98): `/` is rewritten to `/index.html`, then
`os.path.abspath(os.getcwd() + path)`. -/
def resolvedOf (env : Env) (path0 : Str) : Str :=
  abspath (env.cwd ++ (if path0 = str "/" then str "/index.html" else path0))

/-- An error return of `build_response`: HTML body naming the status, with
`Content-Length` and `Content-Type: text/html` set. -/
def buildError (rh : RespHeaders) (status : Nat) (reason : Str) :
    Nat × Str × RespHeaders × Str :=
  let body := errorBody status reason
  (status, reason,
   { rh with contentLength := some (natToStr body.length),
             contentType := some (str "text/html") }, body)

/-- The tail of `build_response` (lines 154-170): read the file for GET
(a failed read is a 500), leave the body empty for HEAD, and set
`Content-Length` to the stat size for HEAD and to the body length for GET. -/
def readAndServe (method : Str) (rh : RespHeaders)
    (content : Str) (size : Nat) (readOk : Bool) : Nat × Str × RespHeaders × Str :=
  if method = str "GET" then
    if readOk then
      (200, str "OK",
       { rh with contentLength := some (natToStr content.length) }, content)
    else buildError rh 500 (str "Internal Server Error")
  else
    (200, str "OK", { rh with contentLength := some (natToStr size) }, [])

/-- `serverPro.build_response` (lines 84-170), returning
`(status_code, reason_phrase, response_headers, body)`. -/
def build_response (env : Env) (method path0 : Str) (reqHeaders : Dict) :
    Nat × Str × RespHeaders × Str :=
  let rh : RespHeaders :=
    { date := some env.now, server := some (str "SimplePythonServer/1.0") }
  let full := resolvedOf env path0
  if ¬ startsWith env.cwd full then
    buildError rh 400 (str "Bad Request")
  else if (env.fs full).isNone then
    buildError rh 404 (str "Not Found")
  else if env.fs full = some .dir then
    buildError rh 404 (str "Not Found")
  else
    match env.mime full with
    | none => buildError rh 415 (str "Unsupported Media Type")
    | some ct =>
      let rh := { rh with contentType := some ct }
      match env.fs full with
      | some (.file content size mtime statOk readOk) =>
        if ¬ statOk then buildError rh 500 (str "Internal Server Error")
        else
          let rh := { rh with lastModified := some (env.fmtDate mtime) }
          match dictGet reqHeaders (str "If-Modified-Since") with
          | some imsValue =>
            if imsValue ≠ [] then
              match env.parsedate imsValue with
              | some t =>
                if mtime ≤ (t : ℚ) then
                  (304, str "Not Modified",
                   { rh with contentType := none, contentLength := some (str "0") }, [])
                else readAndServe method rh content size readOk
              | none => readAndServe method rh content size readOk
            else readAndServe method rh content size readOk
          | none => readAndServe method rh content size readOk
      | _ => buildError rh 500 (str "Internal Server Error")

/-- `status_code in (400, 500, 501, 505)`. -/
def fatalStatus (s : Nat) : Bool := s == 400 || s == 500 || s == 501 || s == 505

/-- The `conn_close` flag of `handle_client` (lines 229-243). -/
def connClose (version connVal : Str) : Bool :=
  if version = str "HTTP/1.1" then strLower connVal = str "close"
  else if version = str "HTTP/1.0" then ¬ strLower connVal = str "keep-alive"
  else false

/-- The `Connection` response header set by `handle_client`
(lines 229-243); `none` is unreachable after a successful parse. -/
def connHeaderValue (version connVal : Str) : Option Str :=
  if version = str "HTTP/1.1" then
    some (if strLower connVal = str "close" then str "close" else str "keep-alive")
  else if version = str "HTTP/1.0" then
    some (if strLower connVal = str "keep-alive" then str "keep-alive" else str "close")
  else none

/-- The post-parse path of `handle_client` (lines 226-258): build the
response, decide the `Connection` header and `conn_close`, suppress the
body on the wire for HEAD and 304, and keep the connection alive unless
`conn_close` or the status is fatal. -/
def respond (env : Env) (method path version : Str) (reqHeaders : Dict) : Response :=
  let r := build_response env method path reqHeaders
  let connVal := (dictGet reqHeaders (str "Connection")).getD []
  { status := r.1, reason := r.2.1,
    headers := { r.2.2.1 with connection := connHeaderValue version connVal },
    body := r.2.2.2,
    sentBody := if method = str "HEAD" ∨ r.1 = 304 then [] else r.2.2.2,
    keepAlive := !(connClose version connVal || fatalStatus r.1) }

/-- Status line of the inline error responses of `handle_client`
(lines 204-210). -/
def errStatus : ParseError → Nat × Str
  | .versionNotSupported => (505, str "HTTP Version Not Supported")
  | .notImplemented => (501, str "Not Implemented")
  | .badRequest => (400, str "Bad Request")

/-- One request/response exchange of `handle_client` (lines 199-258):
parse, answer parse failures with the inline error response (sent with
`Connection: close`, never keeping the connection alive), and otherwise
run `build_response` and the keep-alive decision. -/
def process_request (env : Env) (request_text : Str) : Response :=
  match parse_request env.cwd request_text with
  | .error e =>
    let s := errStatus e
    let body := errorBody s.1 s.2
    { status := s.1, reason := s.2,
      headers := { date := some env.now, contentType := some (str "text/html"),
                   contentLength := some (natToStr body.length),
                   connection := some (str "close") },
      body := body, sentBody := body, keepAlive := false }
  | .ok r => respond env r.method r.path r.version r.headers

/-- Size recorded for the node at `p`, used to state the HEAD
`Content-Length` invariant. -/
def sizeAt (env : Env) (p : Str) : Nat :=
  match env.fs p with
  | some (.file _ size _ _ _) => size
  | _ => 0

namespace ServerErr

/-- `urlparse(path).path` for an origin-form request target: everything
before the first `'?'` or `'#'`. -/
def urlPath (p : Str) : Str := p.takeWhile (fun c => c ≠ '?' ∧ c ≠ '#')

/-- `decoded_path.lstrip('/')`. -/
def lstripSlash (p : Str) : Str := p.dropWhile (fun c => c = '/')

/-- `os.path.join(a, b)` for a relative second component. -/
def pyJoin (a b : Str) : Str :=
  if a = [] then b
  else if a.getLast? = some '/' then a ++ b
  else a ++ '/' :: b

/-- The resolved absolute target of `server_error.handle_client`
(lines 133-135): `os.path.abspath(os.path.join(ROOT_DIR, decoded.lstrip('/')))`. -/
def resolveFull (rootDir reqPath : Str) : Str :=
  abspath (pyJoin rootDir (lstripSlash (unquote (urlPath reqPath))))

/-- Outcome of the path-routing portion of `server_error.handle_client`
(lines 133-152): a 403 (root escape, or directory without `index.html`),
a 404 (target absent), or hand the final file path to
`handle_file_request`. -/
inductive Route where
  | forbidden
  | notFound
  | serve (full : Str)
deriving DecidableEq

/-- Status code that the routing outcome alone determines (`send_403`,
`send_404`); `none` when the request proceeds to file handling. -/
def routeStatus : Route → Option Nat
  | .forbidden => some 403
  | .notFound => some 404
  | .serve _ => none

/-- The path-routing portion of `server_error.handle_client`
(lines 133-152): security check against the root, directory targets are
rewritten to their `index.html` (403 when it is absent — no directory
listing), then an existence check. -/
def route (fs : Str → Option Node) (rootDir reqPath : Str) : Route :=
  let full := resolveFull rootDir reqPath
  if ¬ startsWith rootDir full then .forbidden
  else
    match fs full with
    | some .dir =>
      let idx := pyJoin full (str "index.html")
      if (fs idx).isNone then .forbidden else .serve idx
    | some (.file _ _ _ _ _) => .serve full
    | none => .notFound

end ServerErr


/-! Concrete environments and requests used by the witness and
counterexample theorems below.  The clock-dependent header values are
fixed arbitrarily; they never influence control flow. -/

/-- Environment with working directory `/srv/www` and fixed clock values. -/
def mkEnv (fsF : Str → Option Node) (mimeF : Str → Option Str)
    (pd : Str → Option Int) : Env :=
  { cwd := str "/srv/www", fs := fsF, mime := mimeF, parsedate := pd,
    now := str "NOW", fmtDate := fun _ => str "LM" }

/-- One file `/srv/www/index.html` containing `hello`. -/
def fsServe : Str → Option Node := fun p =>
  if p = str "/srv/www/index.html" then some (.file (str "hello") 5 100 true true)
  else none

/-- MIME table mapping that one file to `text/html`. -/
def mimeServe : Str → Option Str := fun p =>
  if p = str "/srv/www/index.html" then some (str "text/html") else none

/-- Serving environment: `index.html` exists; no date value parses. -/
def envServe : Env := mkEnv fsServe mimeServe (fun _ => none)

/-- Environment with an empty filesystem. -/
def envEmpty : Env := mkEnv (fun _ => none) (fun _ => none) (fun _ => none)

/-- One file `/srv/www/a.html` with modification time `mt`, plus a date
parser that accepts exactly the header value `D`, as epoch second 100. -/
def fsStamp (mt : ℚ) : Str → Option Node := fun p =>
  if p = str "/srv/www/a.html" then some (.file (str "hello") 5 mt true true)
  else none

/-- MIME table for `fsStamp`. -/
def mimeStamp : Str → Option Str := fun p =>
  if p = str "/srv/www/a.html" then some (str "text/html") else none

/-- Date parser accepting exactly `D` (as epoch second 100). -/
def pdStamp : Str → Option Int := fun v => if v = str "D" then some 100 else none

/-- Environment around `fsStamp`. -/
def envStamp (mt : ℚ) : Env := mkEnv (fsStamp mt) mimeStamp pdStamp

/-- A modification time of 100.5 seconds (`os.path.getmtime` returns
sub-second precision), written in reduced form so that it computes. -/
def mtimeHalf : ℚ := ⟨201, 2, by norm_num, by norm_num⟩

/-- A directory `/srv/www/sub` with no `index.html` inside it. -/
def fsDir : Str → Option Node := fun p =>
  if p = str "/srv/www/sub" then some .dir else none

/-- Environment whose filesystem is `fsDir`. -/
def envDir : Env := mkEnv fsDir mimeServe (fun _ => none)

/-- `GET /index.html HTTP/1.1` with a `Host` header. -/
def reqPlain : Str := str "GET /index.html HTTP/1.1\r\nHost: x\r\n\r\n"

/-- `GET /index.html HTTP/1.1` with no headers at all (no `Host`). -/
def reqNoHost : Str := str "GET /index.html HTTP/1.1\r\n\r\n"

/-- A traversal attempt: the decoded path contains a `..` segment and
resolves outside the root. -/
def reqTraversal : Str := str "GET /../secret HTTP/1.1\r\nHost: x\r\n\r\n"

/-- `POST` with an unsupported protocol version. -/
def reqPostOldVersion : Str := str "POST / HTTP/2.0\r\nHost: x\r\n\r\n"

/-- `POST` with a supported protocol version. -/
def reqPost : Str := str "POST / HTTP/1.1\r\nHost: x\r\n\r\n"

/-- Conditional request whose `If-Modified-Since` value parses (`D`). -/
def reqIMS : Str := str "GET /a.html HTTP/1.1\r\nIf-Modified-Since: D\r\n\r\n"

/-- Conditional request whose `If-Modified-Since` value does not parse. -/
def reqIMSBad : Str := str "GET /a.html HTTP/1.1\r\nIf-Modified-Since: E\r\n\r\n"

/-- `HEAD` for a file that does not exist. -/
def reqHeadMissing : Str := str "HEAD /x.html HTTP/1.1\r\n\r\n"

/-- `HEAD` for the served file. -/
def reqHeadIdx : Str := str "HEAD /index.html HTTP/1.1\r\n\r\n"

/-- A request whose `Connection: close` header uses a lower-case name. -/
def reqLowerConn : Str := str "GET /index.html HTTP/1.1\r\nconnection: close\r\n\r\n"

/-- A request whose method token is lower-case `get`. -/
def reqLowerGet : Str := str "get /index.html HTTP/1.1\r\n\r\n"

/-- `GET /sub HTTP/1.1` (a directory target). -/
def reqDir : Str := str "GET /sub HTTP/1.1\r\n\r\n"

/-- First line of the request text (`lines[0]`). -/
def headLine (t : Str) : Str := (splitCRLF t).headD []

/-- The remaining lines (`lines[1:]`). -/
def tailLines (t : Str) : List Str := (splitCRLF t).tail

/-! ## Helper lemmas -/

theorem splitCRLF_ne_nil (t : Str) : splitCRLF t ≠ [] := by
  unfold splitCRLF
  split
  · simp
  · simp
  · split <;> simp

theorem splitCRLF_eq (t : Str) : splitCRLF t = headLine t :: tailLines t := by
  have h := splitCRLF_ne_nil t
  cases hh : splitCRLF t with
  | nil => exact absurd hh h
  | cons a l => simp [headLine, tailLines, hh]

/-- A successfully parsed request has one of the two supported protocol
versions (the check at `parse_request` line 56). -/
theorem parse_ok_version {cwd t : Str} {r : ParsedRequest}
    (h : parse_request cwd t = .ok r) :
    r.version = str "HTTP/1.0" ∨ r.version = str "HTTP/1.1" := by
  simp only [parse_request] at h
  repeat' split at h
  all_goals try exact Except.noConfusion h
  injection h with h2
  subst h2
  simp only [not_and_or, not_not] at *
  tauto

/-- A successfully parsed request has method `GET` or `HEAD` (the check at
`parse_request` line 59, after upper-casing). -/
theorem parse_ok_method {cwd t : Str} {r : ParsedRequest}
    (h : parse_request cwd t = .ok r) :
    r.method = str "GET" ∨ r.method = str "HEAD" := by
  simp only [parse_request] at h
  repeat' split at h
  all_goals try exact Except.noConfusion h
  injection h with h2
  subst h2
  simp only [not_and_or, not_not] at *
  tauto

/-- On a successful parse, `handle_client` continues with the post-parse
response path. -/
theorem process_request_ok {env : Env} {t : Str} {r : ParsedRequest}
    (h : parse_request env.cwd t = .ok r) :
    process_request env t = respond env r.method r.path r.version r.headers := by
  unfold process_request
  rw [h]

/-- On a parse failure, `handle_client` sends the inline error response
and never keeps the connection alive. -/
theorem process_request_err {env : Env} {txt : Str} {e : ParseError}
    (h : parse_request env.cwd txt = .error e) :
    (process_request env txt).status = (errStatus e).1 ∧
    (process_request env txt).keepAlive = false := by
  simp [process_request, h]

/-- For either supported version, `handle_client` always sets an explicit
`Connection` response header. -/
theorem connHeaderValue_isSome {version : Str} (cv : Str)
    (hv : version = str "HTTP/1.0" ∨ version = str "HTTP/1.1") :
    (connHeaderValue version cv).isSome = true := by
  rcases hv with hv | hv <;> subst hv
  · rw [connHeaderValue, if_neg (by decide)]
    simp
  · rw [connHeaderValue, if_pos rfl]
    simp

/-- The keep-alive decision of `handle_client` (lines 228-258), spelled
out: stay open iff (HTTP/1.1 and the `Connection` header value does not
lower-case to `close`) or (HTTP/1.0 and it lower-cases to `keep-alive`),
and the status is not fatal. -/
theorem respond_keepAlive (env : Env) (method path version : Str) (hdrs : Dict)
    (hv : version = str "HTTP/1.0" ∨ version = str "HTTP/1.1") :
    (respond env method path version hdrs).keepAlive = true ↔
      (((version = str "HTTP/1.1" ∧
          ¬ strLower ((dictGet hdrs (str "Connection")).getD []) = str "close")
        ∨ (version = str "HTTP/1.0" ∧
          strLower ((dictGet hdrs (str "Connection")).getD []) = str "keep-alive"))
       ∧ fatalStatus (respond env method path version hdrs).status = false) := by
  have hne : ¬ str "HTTP/1.0" = str "HTTP/1.1" := by decide
  have hne2 : ¬ str "HTTP/1.1" = str "HTTP/1.0" := by decide
  rcases hv with hv | hv <;> subst hv <;>
    simp [respond, connClose, hne, hne2]

/-- The `Content-Length` discipline of `build_response`, across all of its
branches, for the methods that can reach it. -/
theorem build_response_CL (env : Env) (method path : Str) (hdrs : Dict)
    (hm : method = str "GET" ∨ method = str "HEAD") :
    ((build_response env method path hdrs).2.2.1.contentLength).isSome = true ∧
    ((build_response env method path hdrs).1 = 304 →
      (build_response env method path hdrs).2.2.1.contentLength = some (str "0") ∧
      (build_response env method path hdrs).2.2.2 = []) ∧
    (¬ (method = str "HEAD" ∧ (build_response env method path hdrs).1 = 200) →
      (build_response env method path hdrs).2.2.1.contentLength =
        some (natToStr (build_response env method path hdrs).2.2.2.length)) ∧
    (method = str "HEAD" → (build_response env method path hdrs).1 = 200 →
      (build_response env method path hdrs).2.2.2 = [] ∧
      (build_response env method path hdrs).2.2.1.contentLength =
        some (natToStr (sizeAt env (resolvedOf env path)))) := by
  have hgh : ¬ str "GET" = str "HEAD" := by decide
  simp only [build_response, buildError, readAndServe]
  repeat' split
  all_goals simp_all [errorBody, sizeAt]
  all_goals decide

theorem headLine_ne_nil {txt m p v : Str}
    (h2 : pySplit (headLine txt) = [m, p, v]) : headLine txt ≠ [] := by
  intro he
  rw [he] at h2
  simp [pySplit, pySplitGo] at h2

/-- Full characterization of `parse_request` on a request whose first line
has exactly three tokens and a supported version: the result is decided by
the method check, the leading-slash check, and the root-escape check, in
that order. -/
theorem parse_characterize (cwd txt m p v : Str)
    (h2 : pySplit (headLine txt) = [m, p, v])
    (hv : v = str "HTTP/1.0" ∨ v = str "HTTP/1.1") :
    parse_request cwd txt =
      (if strUpper m ≠ str "GET" ∧ strUpper m ≠ str "HEAD" then .error .notImplemented
       else if ¬ startsWith (str "/") p then .error .badRequest
       else if ¬ startsWith cwd (abspath (cwd ++ unquote (stripQuery p))) then
         .error .badRequest
       else .ok { method := strUpper m, path := unquote (stripQuery p), version := v,
                  headers := parseHeaders (tailLines txt) [],
                  requestLine := headLine txt }) := by
  have h1 : headLine txt ≠ [] := headLine_ne_nil h2
  have hvf : ¬ (v ≠ str "HTTP/1.0" ∧ v ≠ str "HTTP/1.1") := by
    rcases hv with h | h <;> simp [h]
  unfold parse_request
  rw [splitCRLF_eq txt]
  simp only [h2, h1, hvf, if_false, ite_false]

/-! ## Claim theorems -/

/-- Claim C1 (amended): for every request whose first line has three
tokens, a supported version, a supported method tolerant of case, and a
path that starts with `/` but whose percent-decoded, query-stripped form
resolves (by `os.path.abspath`) outside the working directory, the
response has status 400 — not 403 as the claim states — and the
connection is closed.  This holds for every filesystem state: the check
at `parse_request` lines 69-71 never consults the filesystem.  A `..`
segment that re-enters the root is not rejected at all. -/
theorem C1_escape_maps_to_400 (env : Env) (txt m p v : Str)
    (h2 : pySplit (headLine txt) = [m, p, v])
    (hv : v = str "HTTP/1.0" ∨ v = str "HTTP/1.1")
    (hm : strUpper m = str "GET" ∨ strUpper m = str "HEAD")
    (hp : startsWith (str "/") p = true)
    (hesc : startsWith env.cwd (abspath (env.cwd ++ unquote (stripQuery p))) = false) :
    (process_request env txt).status = 400 ∧
    (process_request env txt).keepAlive = false := by
  have hmf : ¬ (strUpper m ≠ str "GET" ∧ strUpper m ≠ str "HEAD") := by
    rcases hm with h | h <;> simp [h]
  have hperr : parse_request env.cwd txt = .error .badRequest := by
    rw [parse_characterize env.cwd txt m p v h2 hv, if_neg hmf,
        if_neg (by simp [hp]), if_pos (by simp [hesc])]
  exact process_request_err hperr

/-- Claim C1, counterexample to the statement as frozen: the decoded path
of `GET /../secret HTTP/1.1` contains a `..` segment, yet the response
status is 400, not the claimed 403. -/
theorem C1_dotdot_status_400_not_403 :
    (str "..") ∈ splitSlash (unquote (stripQuery (str "/../secret"))) ∧
    (process_request envServe reqTraversal).status = 400 ∧
    ¬ (process_request envServe reqTraversal).status = 403 := by decide

/-- Claim C1, witness: the amended theorem applied to the concrete
traversal request. -/
theorem C1_escape_maps_to_400_witness :
    (process_request envServe reqTraversal).status = 400 ∧
    (process_request envServe reqTraversal).keepAlive = false :=
  C1_escape_maps_to_400 envServe reqTraversal
    (str "GET") (str "/../secret") (str "HTTP/1.1")
    (by decide) (by decide) (by decide) (by decide) (by decide)

/-- Claim C2: for every successfully parsed request, the connection is
kept alive after the response iff ((the version is HTTP/1.1 and the
`Connection` header the client sent does not lower-case to `close`) or
(the version is HTTP/1.0 and it lower-cases to `keep-alive`)) and the
final status code is not in the fatal set {400, 500, 501, 505}.  The
header value is the one stored in the parsed header map under the exact
key `Connection` (absent means the empty value). -/
theorem C2_keep_alive_iff (env : Env) (txt : Str) (r : ParsedRequest)
    (h : parse_request env.cwd txt = .ok r) :
    (process_request env txt).keepAlive = true ↔
      (((r.version = str "HTTP/1.1" ∧
          ¬ strLower ((dictGet r.headers (str "Connection")).getD []) = str "close")
        ∨ (r.version = str "HTTP/1.0" ∧
          strLower ((dictGet r.headers (str "Connection")).getD []) = str "keep-alive"))
       ∧ fatalStatus (process_request env txt).status = false) := by
  rw [process_request_ok h]
  exact respond_keepAlive env r.method r.path r.version r.headers (parse_ok_version h)

/-- Claim C2, witness: a plain HTTP/1.1 request served with 200 keeps the
connection alive. -/
theorem C2_keep_alive_iff_witness :
    (process_request envServe reqPlain).keepAlive = true := by
  have h := C2_keep_alive_iff envServe reqPlain
    { method := str "GET", path := str "/index.html", version := str "HTTP/1.1",
      headers := [(str "Host", str "x")],
      requestLine := str "GET /index.html HTTP/1.1" }
    (by decide)
  exact h.mpr (by decide)

/-- Claim C3 (amended): `parse_request` performs no `Host` check at all.
For every request whose first line has three tokens, a supported version,
a supported method, a leading-slash path passing the root check, parsing
succeeds — in particular when the header block contains no `Host` header —
and there is no `MissingHostHeader` outcome in the error type. -/
theorem C3_no_host_check (env : Env) (txt m p v : Str)
    (h2 : pySplit (headLine txt) = [m, p, v])
    (hv : v = str "HTTP/1.0" ∨ v = str "HTTP/1.1")
    (hm : strUpper m = str "GET" ∨ strUpper m = str "HEAD")
    (hp : startsWith (str "/") p = true)
    (hok : startsWith env.cwd (abspath (env.cwd ++ unquote (stripQuery p))) = true)
    (hnohost : dictGet (parseHeaders (tailLines txt) []) (str "Host") = none) :
    parse_request env.cwd txt =
      .ok { method := strUpper m, path := unquote (stripQuery p), version := v,
            headers := parseHeaders (tailLines txt) [],
            requestLine := headLine txt } := by
  have hmf : ¬ (strUpper m ≠ str "GET" ∧ strUpper m ≠ str "HEAD") := by
    rcases hm with h | h <;> simp [h]
  rw [parse_characterize env.cwd txt m p v h2 hv, if_neg hmf,
      if_neg (by simp [hp]), if_neg (by simp [hok])]

/-- Claim C3, counterexample to the statement as frozen: an HTTP/1.1
request with no `Host` header parses successfully and is answered 200,
not 400. -/
theorem C3_missing_host_parses_ok :
    parse_request (str "/srv/www") reqNoHost =
      .ok { method := str "GET", path := str "/index.html",
            version := str "HTTP/1.1", headers := [],
            requestLine := str "GET /index.html HTTP/1.1" } ∧
    (process_request envServe reqNoHost).status = 200 := by decide

/-- Claim C3, witness: the amended theorem applied to the concrete
host-less request. -/
theorem C3_no_host_check_witness :
    parse_request envServe.cwd reqNoHost =
      .ok { method := strUpper (str "GET"),
            path := unquote (stripQuery (str "/index.html")),
            version := str "HTTP/1.1",
            headers := parseHeaders (tailLines reqNoHost) [],
            requestLine := headLine reqNoHost } :=
  C3_no_host_check envServe reqNoHost
    (str "GET") (str "/index.html") (str "HTTP/1.1")
    (by decide) (by decide) (by decide) (by decide) (by decide) (by decide)

/-- Claim C4 (amended): for every served resource carrying an
`If-Modified-Since` header, if the value parses then the comparison is
`mtime <= timestamp` on the raw (sub-second) modification time — not at
one-second resolution as the claim states — and on a hit the response is
304 with empty body, no `Content-Type`, `Content-Length` 0, and `Date`
and `Connection` headers still present; if the value fails to parse the
server falls through to a normal 200 and never errors. -/
theorem C4_conditional_get (env : Env) (txt : Str) (r : ParsedRequest)
    (content : Str) (size : Nat) (mtime : ℚ) (readOk : Bool) (ct imsv : Str)
    (h : parse_request env.cwd txt = .ok r)
    (hroot : startsWith env.cwd (resolvedOf env r.path) = true)
    (hfile : env.fs (resolvedOf env r.path) = some (.file content size mtime true readOk))
    (hmime : env.mime (resolvedOf env r.path) = some ct)
    (hims : dictGet r.headers (str "If-Modified-Since") = some imsv)
    (hne : imsv ≠ []) :
    (∀ ts : Int, env.parsedate imsv = some ts → mtime ≤ (ts : ℚ) →
      (process_request env txt).status = 304 ∧
      (process_request env txt).sentBody = [] ∧
      (process_request env txt).body = [] ∧
      (process_request env txt).headers.contentType = none ∧
      (process_request env txt).headers.contentLength = some (str "0") ∧
      (process_request env txt).headers.date = some env.now ∧
      ((process_request env txt).headers.connection).isSome = true) ∧
    (env.parsedate imsv = none → readOk = true →
      (process_request env txt).status = 200) := by
  rw [process_request_ok h]
  have hv := parse_ok_version h
  constructor
  · intro ts hpd hle
    simp only [respond, build_response, hroot, hfile, hmime, hims, hpd]
    simp [hne, if_pos hle, hle]
    exact connHeaderValue_isSome _ hv
  · intro hpd hread
    simp only [respond, build_response, hroot, hfile, hmime, hims, hpd]
    by_cases hg : r.method = str "GET" <;> simp [hne, readAndServe, hg, hread]

/-- Claim C4, counterexample to the statement as frozen: a file whose
modification time is 100.5 s lies, at one-second resolution, in second
100 — not newer than an `If-Modified-Since` stamp of second 100 — yet the
response is 200, not the claimed 304, because the code compares the raw
float `last_mod_ts <= ims_dt.timestamp()` (`build_response` line 149). -/
theorem C4_subsecond_mtime_yields_200 :
    pdStamp (str "D") = some 100 ∧
    ((100 : ℚ) ≤ mtimeHalf ∧ mtimeHalf < 101) ∧
    (process_request (envStamp mtimeHalf) reqIMS).status = 200 ∧
    ¬ (process_request (envStamp mtimeHalf) reqIMS).status = 304 := by decide

/-- Claim C4, witness: the amended theorem applied to a file of
modification time 99 with a parsing stamp (hit, 304) and to a
non-parsing stamp (fall-through, 200). -/
theorem C4_conditional_get_witness :
    ((process_request (envStamp 99) reqIMS).status = 304 ∧
      (process_request (envStamp 99) reqIMS).headers.contentType = none) ∧
    (process_request (envStamp 99) reqIMSBad).status = 200 := by
  have hA := C4_conditional_get (envStamp 99) reqIMS
    { method := str "GET", path := str "/a.html", version := str "HTTP/1.1",
      headers := [(str "If-Modified-Since", str "D")],
      requestLine := str "GET /a.html HTTP/1.1" }
    (str "hello") 5 99 true (str "text/html") (str "D")
    (by decide) (by decide) (by decide) (by decide) (by decide) (by decide)
  have hB := C4_conditional_get (envStamp 99) reqIMSBad
    { method := str "GET", path := str "/a.html", version := str "HTTP/1.1",
      headers := [(str "If-Modified-Since", str "E")],
      requestLine := str "GET /a.html HTTP/1.1" }
    (str "hello") 5 99 true (str "text/html") (str "E")
    (by decide) (by decide) (by decide) (by decide) (by decide) (by decide)
  have h304 := hA.1 100 (by decide) (by decide)
  exact ⟨⟨h304.1, h304.2.2.2.1⟩, hB.2 (by decide) (by decide)⟩

/-- Claim C5 (amended): every response produced for a successfully parsed
request carries a `Content-Length` header; the body put on the wire is
the builder's body except for HEAD and 304 where it is empty; for 304 the
`Content-Length` is forced to `0` and the builder's body is empty; in
every other case except HEAD-with-200 the `Content-Length` equals the
byte length of the builder's (would-be) body — for HEAD error responses
this is the length of the unsent error page, not 0 and not a resource
size, which is where the claim as frozen fails; and for HEAD-with-200 the
builder's body is empty while `Content-Length` reports the stat size of
the resolved resource. -/
theorem C5_content_length_invariant (env : Env) (txt : Str) (r : ParsedRequest)
    (h : parse_request env.cwd txt = .ok r) :
    ((process_request env txt).headers.contentLength).isSome = true ∧
    (process_request env txt).sentBody =
      (if r.method = str "HEAD" ∨ (process_request env txt).status = 304 then []
       else (process_request env txt).body) ∧
    ((process_request env txt).status = 304 →
      (process_request env txt).headers.contentLength = some (str "0") ∧
      (process_request env txt).body = []) ∧
    (¬ (r.method = str "HEAD" ∧ (process_request env txt).status = 200) →
      (process_request env txt).headers.contentLength =
        some (natToStr (process_request env txt).body.length)) ∧
    (r.method = str "HEAD" → (process_request env txt).status = 200 →
      (process_request env txt).body = [] ∧
      (process_request env txt).headers.contentLength =
        some (natToStr (sizeAt env (resolvedOf env r.path)))) := by
  rw [process_request_ok h]
  have hb := build_response_CL env r.method r.path r.headers (parse_ok_method h)
  simp only [respond] at *
  exact ⟨hb.1, trivial, hb.2.1, hb.2.2.1, hb.2.2.2⟩

/-- Claim C5, counterexample to the statement as frozen: `HEAD` of a
missing file sends an empty body with `Content-Length: 48` (the length of
the 404 error page that is never sent), which is neither the byte length
of the body sent (0) nor a "real resource size" — no resource exists at
the resolved location. -/
theorem C5_head_error_content_length :
    envEmpty.fs (resolvedOf envEmpty (str "/x.html")) = none ∧
    (process_request envEmpty reqHeadMissing).status = 404 ∧
    (process_request envEmpty reqHeadMissing).sentBody = [] ∧
    (process_request envEmpty reqHeadMissing).headers.contentLength =
      some (str "48") ∧
    ¬ str "48" = str "0" := by decide

/-- Claim C5, witness: the amended invariant applied to `HEAD` of the
served file: empty builder body and `Content-Length` equal to the stat
size. -/
theorem C5_content_length_invariant_witness :
    (process_request envServe reqHeadIdx).body = [] ∧
    (process_request envServe reqHeadIdx).headers.contentLength =
      some (natToStr (sizeAt envServe (resolvedOf envServe (str "/index.html")))) := by
  have h := C5_content_length_invariant envServe reqHeadIdx
    { method := str "HEAD", path := str "/index.html", version := str "HTTP/1.1",
      headers := [], requestLine := str "HEAD /index.html HTTP/1.1" }
    (by decide)
  exact h.2.2.2.2 (by decide) (by decide)

/-- Claim C6 (amended): for every request line of exactly three tokens
whose version token is HTTP/1.0 or HTTP/1.1 — the version check precedes
the method check, so an unsupported version yields 505 even for a non-GET
method, which is where the claim as frozen fails — a method other than
GET/HEAD (after upper-casing) yields status 501, not 400, and the
connection is closed; and the parser rejects with `notImplemented`
exactly when the upper-cased method is neither GET nor HEAD. -/
theorem C6_unsupported_method_501 (env : Env) (txt m p v : Str)
    (h2 : pySplit (headLine txt) = [m, p, v])
    (hv : v = str "HTTP/1.0" ∨ v = str "HTTP/1.1") :
    ((strUpper m ≠ str "GET" ∧ strUpper m ≠ str "HEAD") →
      (process_request env txt).status = 501 ∧
      (process_request env txt).keepAlive = false) ∧
    (parse_request env.cwd txt = .error .notImplemented ↔
      (strUpper m ≠ str "GET" ∧ strUpper m ≠ str "HEAD")) := by
  have hch := parse_characterize env.cwd txt m p v h2 hv
  constructor
  · intro hm
    have hperr : parse_request env.cwd txt = .error .notImplemented := by
      rw [hch, if_pos hm]
    exact process_request_err hperr
  · constructor
    · intro hne
      by_contra hm
      rw [hch, if_neg hm] at hne
      split at hne
      · simp at hne
      · split at hne <;> simp at hne
    · intro hm
      rw [hch, if_pos hm]

/-- Claim C6, counterexample to the statement as frozen: `POST / HTTP/2.0`
has three tokens and a syntactically valid non-GET/HEAD method, yet the
response is 505, not the claimed 501, because the version check comes
first (`parse_request` lines 56-60). -/
theorem C6_post_bad_version_505 :
    (process_request envServe reqPostOldVersion).status = 505 ∧
    ¬ (process_request envServe reqPostOldVersion).status = 501 := by decide

/-- Claim C6, witness: `POST` with a supported version yields 501 and a
closed connection. -/
theorem C6_unsupported_method_501_witness :
    (process_request envServe reqPost).status = 501 ∧
    (process_request envServe reqPost).keepAlive = false := by
  have h := C6_unsupported_method_501 envServe reqPost
    (str "POST") (str "/") (str "HTTP/1.1") (by decide) (by decide)
  exact h.1 (by decide)

/-- Claim C7 (amended): in `server_error.py` — the variant whose routing
the spec canonicalizes — every root-confined resolved target that is a
directory is rewritten to its `index.html`; if that index is absent the
outcome is Forbidden, sent as 403, and no directory listing is ever
produced (the only alternatives are 403 or serving the index file).  In
`serverPro.py` this fails: a directory target is answered 404 (see the
counterexample). -/
theorem C7_dir_index_forbidden (fs : Str → Option Node) (rootDir reqPath : Str)
    (hroot : startsWith rootDir (ServerErr.resolveFull rootDir reqPath) = true)
    (hdir : fs (ServerErr.resolveFull rootDir reqPath) = some .dir) :
    ServerErr.route fs rootDir reqPath =
      (if (fs (ServerErr.pyJoin (ServerErr.resolveFull rootDir reqPath)
              (str "index.html"))).isNone
       then .forbidden
       else .serve (ServerErr.pyJoin (ServerErr.resolveFull rootDir reqPath)
              (str "index.html"))) ∧
    ServerErr.routeStatus .forbidden = some 403 := by
  constructor
  · simp [ServerErr.route, hroot, hdir]
  · rfl

/-- Claim C7, counterexample to the statement as frozen: in `serverPro.py`
a root-confined directory target is answered 404, not 403, and no index
lookup happens (`build_response` lines 112-117). -/
theorem C7_serverPro_dir_404 :
    envDir.fs (resolvedOf envDir (str "/sub")) = some .dir ∧
    (process_request envDir reqDir).status = 404 ∧
    ¬ (process_request envDir reqDir).status = 403 := by decide

/-- Claim C7, witness: the `server_error.py` routing on a directory with
no index: outcome Forbidden, status 403. -/
theorem C7_dir_index_forbidden_witness :
    ServerErr.route fsDir (str "/srv/www") (str "/sub") = ServerErr.Route.forbidden ∧
    ServerErr.routeStatus ServerErr.Route.forbidden = some 403 := by
  have h := C7_dir_index_forbidden fsDir (str "/srv/www") (str "/sub")
    (by decide) (by decide)
  exact ⟨by rw [h.1]; decide, h.2⟩

/-- Claim C8: for every existing readable file whose stat size matches its
content length and whose extension is mapped in the MIME table, and a
request without `If-Modified-Since`, `GET` returns 200 with body the file
content and `Content-Length` its byte length, and `HEAD` for the same
file returns exactly the same headers with an empty body on the wire. -/
theorem C8_get_head_agree (env : Env) (p version : Str) (hdrs : Dict)
    (content : Str) (mtime : ℚ) (ct : Str)
    (hroot : startsWith env.cwd (resolvedOf env p) = true)
    (hfile : env.fs (resolvedOf env p) =
      some (.file content content.length mtime true true))
    (hmime : env.mime (resolvedOf env p) = some ct)
    (hims : dictGet hdrs (str "If-Modified-Since") = none) :
    (respond env (str "GET") p version hdrs).status = 200 ∧
    (respond env (str "GET") p version hdrs).body = content ∧
    (respond env (str "GET") p version hdrs).sentBody = content ∧
    (respond env (str "GET") p version hdrs).headers.contentLength =
      some (natToStr content.length) ∧
    (respond env (str "HEAD") p version hdrs).status = 200 ∧
    (respond env (str "HEAD") p version hdrs).headers =
      (respond env (str "GET") p version hdrs).headers ∧
    (respond env (str "HEAD") p version hdrs).sentBody = [] ∧
    (respond env (str "HEAD") p version hdrs).body = [] := by
  have hgh : ¬ str "GET" = str "HEAD" := by decide
  have hhg : ¬ str "HEAD" = str "GET" := by decide
  simp [respond, build_response, readAndServe, hroot, hfile, hmime, hims, hgh, hhg]

/-- Claim C8, witness: `GET` and `HEAD` of the concrete served file. -/
theorem C8_get_head_agree_witness :
    (respond envServe (str "GET") (str "/index.html") (str "HTTP/1.1") []).status
      = 200 ∧
    (respond envServe (str "HEAD") (str "/index.html") (str "HTTP/1.1") []).headers
      = (respond envServe (str "GET") (str "/index.html") (str "HTTP/1.1") []).headers ∧
    (respond envServe (str "HEAD") (str "/index.html") (str "HTTP/1.1") []).sentBody
      = [] := by
  have h := C8_get_head_agree envServe (str "/index.html") (str "HTTP/1.1") []
    (str "hello") 100 (str "text/html")
    (by decide) (by decide) (by decide) (by decide)
  exact ⟨h.1, h.2.2.2.2.2.1, h.2.2.2.2.2.2.1⟩

/-- Claim C9: the keep-alive decision reads the parsed header map with the
exact key `Connection`, and header names are stored with the casing the
client sent; when no header name is exactly `Connection` the decision
reduces to the version default — kept alive iff the version is HTTP/1.1
and the status is not fatal.  The witness exhibits a request that sent
`connection: close` (lower-case) on HTTP/1.1 and is still kept alive. -/
theorem C9_connection_exact_case (env : Env) (txt : Str) (r : ParsedRequest)
    (h : parse_request env.cwd txt = .ok r)
    (hc : dictGet r.headers (str "Connection") = none) :
    ((process_request env txt).keepAlive = true ↔
      (r.version = str "HTTP/1.1" ∧
        fatalStatus (process_request env txt).status = false)) := by
  rw [process_request_ok h,
      respond_keepAlive env r.method r.path r.version r.headers (parse_ok_version h),
      hc]
  have h1 : ¬ str "close" = ([] : Str) := by decide
  have h2 : ¬ str "keep-alive" = ([] : Str) := by decide
  simp [strLower, h1, h2]

/-- Claim C9, witness: `GET /index.html HTTP/1.1` with `connection: close`
(lower-case name): the parsed header map stores the name as sent, the
exact-key lookup misses, and the connection is kept alive. -/
theorem C9_connection_exact_case_witness :
    (process_request envServe reqLowerConn).keepAlive = true := by
  have h := C9_connection_exact_case envServe reqLowerConn
    { method := str "GET", path := str "/index.html", version := str "HTTP/1.1",
      headers := [(str "connection", str "close")],
      requestLine := str "GET /index.html HTTP/1.1" }
    (by decide) (by decide)
  exact h.mpr (by decide)

/-- Claim C10: the method token is matched case-insensitively — the parser
upper-cases it before the check (`parse_request` line 54) — so on a
three-token request line with a supported version, the parser rejects
with `notImplemented` exactly when the upper-cased method differs from
both GET and HEAD, and a successful parse records the upper-cased method
as the request's method. -/
theorem C10_method_case_insensitive (cwd txt m p v : Str)
    (h2 : pySplit (headLine txt) = [m, p, v])
    (hv : v = str "HTTP/1.0" ∨ v = str "HTTP/1.1") :
    (parse_request cwd txt = .error .notImplemented ↔
      ¬ (strUpper m = str "GET" ∨ strUpper m = str "HEAD")) ∧
    (∀ r : ParsedRequest, parse_request cwd txt = .ok r → r.method = strUpper m) := by
  have hch := parse_characterize cwd txt m p v h2 hv
  constructor
  · rw [not_or]
    constructor
    · intro hne
      by_contra hm
      rw [hch, if_neg hm] at hne
      split at hne
      · simp at hne
      · split at hne <;> simp at hne
    · intro hm
      rw [hch, if_pos hm]
  · intro r hr
    rw [hch] at hr
    split at hr
    · exact absurd hr (by simp)
    · split at hr
      · simp at hr
      · split at hr
        · simp at hr
        · injection hr with h3
          rw [← h3]

/-- Claim C10, witness: `get /index.html HTTP/1.1` is not rejected as
unsupported, and the parsed request it yields records the method as
`GET` (the upper-casing of `get`). -/
theorem C10_method_case_insensitive_witness :
    ¬ parse_request (str "/srv/www") reqLowerGet = .error .notImplemented ∧
    ParsedRequest.method
      { method := str "GET", path := str "/index.html", version := str "HTTP/1.1",
        headers := [], requestLine := str "get /index.html HTTP/1.1" }
      = strUpper (str "get") := by
  have h := C10_method_case_insensitive (str "/srv/www") reqLowerGet
    (str "get") (str "/index.html") (str "HTTP/1.1") (by decide) (by decide)
  exact ⟨fun hc => absurd (h.1.mp hc) (by decide), h.2 _ (by decide)⟩
